import Mathlib

/-!
Shallow embedding of the blvm-mesh core (packet model and codec, routing
policy engine, replay guard, routing table, route discovery, and the
forwarding manager), translated from the Rust sources under `src/`.

Bytes are modelled as `Nat` values below 256 kept in lists; machine
integers (`u8`, `u32`, `u64`) are `Nat` with an explicit `% 2^w`
reduction wherever the Rust code can overflow.  The concurrent `DashMap`
containers are modelled as association lists whose `insert` replaces the
key (the maps are accessed through one logical owner in every scenario
the claims describe, so a sequential map model is faithful).  Rust
`String` error payloads that carry formatted numbers are modelled as
inductive error values whose constructors carry the same data; each
constructor's doc comment quotes the exact source string.
-/

set_option maxRecDepth 10000

namespace BlvmMesh

/-- A byte: a `Nat` intended to be `< 256`. -/
abbrev Byte := Nat

/-- A byte string (`Vec<u8>` / `&[u8]`). -/
abbrev Bytes := List Byte

/-- `NodeId` from `routing.rs`: a 32-byte identifier (`[u8; 32]`),
modelled as its list of bytes. -/
abbrev NodeId := List Byte

/-- A 32-byte hash (`[u8; 32]`), the replay key. -/
abbrev Hash32 := List Byte

/-- The all-zero 32-byte node id (`[0u8; 32]`). -/
def zeroNodeId : NodeId := List.replicate 32 0

/-- `2^64`, the modulus of `u64` arithmetic. -/
def u64Mod : Nat := 18446744073709551616

/-! ### Association-list maps (model of `DashMap` / `HashMap`) -/

/-- Lookup in an association list (first match wins). -/
def alistLookup {κ ν : Type} [DecidableEq κ] : List (κ × ν) → κ → Option ν
  | [], _ => none
  | (k, v) :: rest, key => if k = key then some v else alistLookup rest key

/-- Remove every pair with the given key. -/
def alistRemove {κ ν : Type} [DecidableEq κ] (l : List (κ × ν)) (key : κ) :
    List (κ × ν) :=
  l.filter (fun kv => decide (kv.1 ≠ key))

/-- Map insert: replaces any existing binding of the key (`DashMap::insert`). -/
def alistInsert {κ ν : Type} [DecidableEq κ] (l : List (κ × ν)) (key : κ) (v : ν) :
    List (κ × ν) :=
  (key, v) :: alistRemove l key

/-- `contains_key`. -/
def alistContains {κ ν : Type} [DecidableEq κ] (l : List (κ × ν)) (key : κ) : Bool :=
  (alistLookup l key).isSome

/-! ### Payment proofs (`payment_proof.rs`) -/

/-- `PaymentProof` from `payment_proof.rs`.  The BOLT11 invoice string and
the serialized covenant are modelled as their UTF-8 byte lists.  The
`InstantSettlement` variant is the `#[cfg(feature = "ctv")]` arm. -/
inductive PaymentProof : Type
  | lightning (invoice : Bytes) (preimage : Hash32)
      (amountMsats timestamp expiresAt : Nat)
  | instantSettlement (covenantProof : Bytes) (outputIndex : Nat)
      (merkleProof : List Hash32) (amountSats timestamp : Nat)
deriving DecidableEq, Repr

/-- `PaymentProof::amount_sats`. -/
def PaymentProof.amountSats : PaymentProof → Nat
  | .lightning _ _ amountMsats _ _ => amountMsats / 1000
  | .instantSettlement _ _ _ amountSats _ => amountSats

/-- `PaymentProof::timestamp`. -/
def PaymentProof.timestampOf : PaymentProof → Nat
  | .lightning _ _ _ timestamp _ => timestamp
  | .instantSettlement _ _ _ _ timestamp => timestamp

/-- `PaymentProof::is_expired`, with the `SystemTime::now()` reading passed
in explicitly as `now` (seconds since epoch).  Lightning: `now > expires_at`;
CTV: `now > timestamp + MAX_AGE_SECONDS` with `MAX_AGE_SECONDS = 24*60*60`. -/
def PaymentProof.isExpired (now : Nat) : PaymentProof → Bool
  | .lightning _ _ _ _ expiresAt => decide (now > expiresAt)
  | .instantSettlement _ _ _ _ timestamp => decide (now > timestamp + 24 * 60 * 60)

/-- `VerificationResult` from `payment_proof.rs`. -/
structure VerificationResult : Type where
  verified : Bool
  amount : Nat
  timestamp : Nat
  expiresAt : Option Nat
  error : Option String
deriving DecidableEq, Repr

/-! ### Mesh packets (`packet.rs`) -/

/-- `MESH_PACKET_MAGIC = [0x4D, 0x45, 0x53, 0x48]` ("MESH"). -/
def meshPacketMagic : Bytes := [0x4D, 0x45, 0x53, 0x48]

/-- `MESH_PACKET_VERSION = 1`. -/
def meshPacketVersion : Nat := 1

/-- `MAX_PACKET_SIZE = 1_000_000`. -/
def maxPacketSize : Nat := 1000000

/-- `PacketType` from `packet.rs` (serde enum; bincode tags it by variant
index: BitcoinP2P = 0, CommonsGovernance = 1, StratumV2 = 2, Paid = 3). -/
inductive PacketType : Type
  | bitcoinP2P
  | commonsGovernance
  | stratumV2
  | paid
deriving DecidableEq, Repr

/-- `PacketMetadata` from `packet.rs`; the `HashMap<String, String>` of extra
fields is modelled as an association list of UTF-8 byte lists (its bincode
iteration order is the list order). -/
structure PacketMetadata : Type where
  protocol : Option Bytes
  fields : List (Bytes × Bytes)
deriving DecidableEq, Repr

/-- `MeshPacket` from `packet.rs` (fields in declaration order, which is
also the bincode field order). -/
structure MeshPacket : Type where
  version : Nat
  packetType : PacketType
  source : NodeId
  destination : NodeId
  route : List NodeId
  sequence : Nat
  timestamp : Nat
  paymentProof : Option PaymentProof
  payload : Bytes
  metadata : Option PacketMetadata
deriving DecidableEq, Repr

/-- `MeshPacket::serialized_size`: the size estimate used by `validate`
(82-byte header + 32 bytes per route entry + 500 if a proof is present +
payload length + 100 if metadata is present). -/
def MeshPacket.serializedSize (p : MeshPacket) : Nat :=
  82 + p.route.length * 32 +
    (if p.paymentProof.isSome then 500 else 0) +
    p.payload.length +
    (if p.metadata.isSome then 100 else 0)

/-- Structural validation errors raised by `MeshPacket::validate`; each
constructor corresponds to one `Err(...)` string of the source. -/
inductive PacketErr : Type
  /-- `"Invalid packet version: {v}"` -/
  | badVersion (v : Nat)
  /-- `"Packet size exceeds maximum: {size} > {max}"` -/
  | tooLarge (size : Nat)
  /-- `"Route cannot be empty"` -/
  | emptyRoute
  /-- `"Route must start with source node"` -/
  | routeStartMismatch
  /-- `"Route must end with destination node"` -/
  | routeEndMismatch
  /-- `"Paid packets require payment proof"` -/
  | missingPaymentProof
deriving DecidableEq, Repr

/-- `MeshPacket::validate` from `packet.rs`, checks in source order. -/
def MeshPacket.validate (p : MeshPacket) : Except PacketErr Unit :=
  if p.version ≠ meshPacketVersion then .error (.badVersion p.version)
  else if p.serializedSize > maxPacketSize then .error (.tooLarge p.serializedSize)
  else if p.route = [] then .error .emptyRoute
  else if p.route.head? ≠ some p.source then .error .routeStartMismatch
  else if p.route.getLast? ≠ some p.destination then .error .routeEndMismatch
  else if p.packetType = .paid ∧ p.paymentProof = none then .error .missingPaymentProof
  else .ok ()

/-- `MeshPacket::is_for_me`. -/
def MeshPacket.isForMe (p : MeshPacket) (myNodeId : NodeId) : Bool :=
  decide (p.destination = myNodeId)

/-- `MeshPacket::should_forward`. -/
def MeshPacket.shouldForward (p : MeshPacket) (myNodeId : NodeId) : Bool :=
  if p.isForMe myNodeId then false else p.route.contains myNodeId

/-- `MeshPacket::add_to_route`: insert `nodeId` immediately before the
destination, unless it is already somewhere in the route. -/
def MeshPacket.addToRoute (p : MeshPacket) (nodeId : NodeId) : MeshPacket :=
  if p.route.contains nodeId then p
  else { p with route := p.route.take (p.route.length - 1) ++ [nodeId] ++
                           p.route.drop (p.route.length - 1) }

/-! ### Bincode codec (legacy `bincode::serialize` / `bincode::deserialize`
configuration: fixed-width little-endian integers, `u32` enum variant tags,
`u8` option tags, `u64` length prefixes). -/

/-- Little-endian encoding of `n` on `k` bytes. -/
def natToLe : Nat → Nat → Bytes
  | 0, _ => []
  | k + 1, n => n % 256 :: natToLe k (n / 256)

/-- Little-endian byte list to `Nat`. -/
def leToNat (bs : Bytes) : Nat :=
  bs.foldr (fun b acc => b % 256 + 256 * acc) 0

/-- Bincode encoding of a `u8`. -/
def encU8 (n : Nat) : Bytes := [n % 256]

/-- Bincode encoding of a `u32` (little-endian, 4 bytes). -/
def encU32 (n : Nat) : Bytes := natToLe 4 n

/-- Bincode encoding of a `u64` (little-endian, 8 bytes). -/
def encU64 (n : Nat) : Bytes := natToLe 8 n

/-- Bincode encoding of a byte vector (`Vec<u8>` / `String`): `u64` length
prefix then the raw bytes. -/
def encBytes (bs : Bytes) : Bytes := encU64 bs.length ++ bs

/-- Bincode encoding of an `Option`: `u8` tag 0 (`None`) or 1 (`Some`). -/
def encOption {α : Type} (enc : α → Bytes) : Option α → Bytes
  | none => [0]
  | some a => 1 :: enc a

/-- Bincode encoding of `PacketType` (variant index as `u32`). -/
def encPacketType : PacketType → Bytes
  | .bitcoinP2P => encU32 0
  | .commonsGovernance => encU32 1
  | .stratumV2 => encU32 2
  | .paid => encU32 3

/-- Bincode encoding of `PaymentProof` (variant index as `u32`, then the
fields in declaration order; `[u8; 32]` arrays are raw, unprefixed). -/
def encPaymentProof : PaymentProof → Bytes
  | .lightning invoice preimage amountMsats timestamp expiresAt =>
      encU32 0 ++ encBytes invoice ++ preimage ++ encU64 amountMsats ++
        encU64 timestamp ++ encU64 expiresAt
  | .instantSettlement covenantProof outputIndex merkleProof amountSats timestamp =>
      encU32 1 ++ encBytes covenantProof ++ encU32 outputIndex ++
        encU64 merkleProof.length ++ merkleProof.flatten ++
        encU64 amountSats ++ encU64 timestamp

/-- Bincode encoding of `PacketMetadata`. -/
def encPacketMetadata (m : PacketMetadata) : Bytes :=
  encOption encBytes m.protocol ++ encU64 m.fields.length ++
    (m.fields.map (fun kv => encBytes kv.1 ++ encBytes kv.2)).flatten

/-- Bincode encoding of a `MeshPacket` (fields in declaration order). -/
def encMeshPacket (p : MeshPacket) : Bytes :=
  encU8 p.version ++ encPacketType p.packetType ++ p.source ++ p.destination ++
    encU64 p.route.length ++ p.route.flatten ++ encU64 p.sequence ++
    encU64 p.timestamp ++ encOption encPaymentProof p.paymentProof ++
    encBytes p.payload ++ encOption encPacketMetadata p.metadata

/-- Read exactly `n` bytes from the front of the input. -/
def takeN (n : Nat) (bs : Bytes) : Option (Bytes × Bytes) :=
  if bs.length < n then none else some (bs.take n, bs.drop n)

/-- Decode a `u8`. -/
def decU8 (bs : Bytes) : Option (Nat × Bytes) :=
  match bs with
  | [] => none
  | b :: rest => some (b, rest)

/-- Decode a `u32` (4 bytes little-endian). -/
def decU32 (bs : Bytes) : Option (Nat × Bytes) :=
  (takeN 4 bs).map (fun br => (leToNat br.1, br.2))

/-- Decode a `u64` (8 bytes little-endian). -/
def decU64 (bs : Bytes) : Option (Nat × Bytes) :=
  (takeN 8 bs).map (fun br => (leToNat br.1, br.2))

/-- Decode a `[u8; 32]` array (32 raw bytes). -/
def decArr32 (bs : Bytes) : Option (Bytes × Bytes) := takeN 32 bs

/-- Decode a length-prefixed byte vector (`Vec<u8>` / `String`; the UTF-8
validity check bincode performs for `String` is not modelled — the claims
never decode a string). -/
def decBytes (bs : Bytes) : Option (Bytes × Bytes) :=
  (decU64 bs).bind (fun nr => takeN nr.1 nr.2)

/-- Decode `n` consecutive values with the element decoder `dec`. -/
def decListOf {α : Type} (dec : Bytes → Option (α × Bytes)) :
    Nat → Bytes → Option (List α × Bytes)
  | 0, bs => some ([], bs)
  | n + 1, bs =>
      (dec bs).bind (fun ar =>
        (decListOf dec n ar.2).map (fun lr => (ar.1 :: lr.1, lr.2)))

/-- Decode a length-prefixed sequence. -/
def decVec {α : Type} (dec : Bytes → Option (α × Bytes)) (bs : Bytes) :
    Option (List α × Bytes) :=
  (decU64 bs).bind (fun nr => decListOf dec nr.1 nr.2)

/-- Decode an `Option` (tag byte 0 or 1; any other tag is an error). -/
def decOption {α : Type} (dec : Bytes → Option (α × Bytes)) (bs : Bytes) :
    Option (Option α × Bytes) :=
  (decU8 bs).bind (fun tr =>
    if tr.1 = 0 then some (none, tr.2)
    else if tr.1 = 1 then (dec tr.2).map (fun ar => (some ar.1, ar.2))
    else none)

/-- Decode a `PacketType` (`u32` variant tag; 4 variants). -/
def decPacketType (bs : Bytes) : Option (PacketType × Bytes) :=
  (decU32 bs).bind (fun tr =>
    match tr.1 with
    | 0 => some (.bitcoinP2P, tr.2)
    | 1 => some (.commonsGovernance, tr.2)
    | 2 => some (.stratumV2, tr.2)
    | 3 => some (.paid, tr.2)
    | _ => none)

/-- Decode a `PaymentProof` (`u32` variant tag, then the fields). -/
def decPaymentProof (bs : Bytes) : Option (PaymentProof × Bytes) :=
  (decU32 bs).bind (fun tr =>
    match tr.1 with
    | 0 =>
        (decBytes tr.2).bind (fun inv =>
          (decArr32 inv.2).bind (fun pre =>
            (decU64 pre.2).bind (fun amt =>
              (decU64 amt.2).bind (fun ts =>
                (decU64 ts.2).map (fun ex =>
                  (.lightning inv.1 pre.1 amt.1 ts.1 ex.1, ex.2))))))
    | 1 =>
        (decBytes tr.2).bind (fun cov =>
          (decU32 cov.2).bind (fun oi =>
            (decVec decArr32 oi.2).bind (fun mp =>
              (decU64 mp.2).bind (fun amt =>
                (decU64 amt.2).map (fun ts =>
                  (.instantSettlement cov.1 oi.1 mp.1 amt.1 ts.1, ts.2))))))
    | _ => none)

/-- Decode a `PacketMetadata`. -/
def decPacketMetadata (bs : Bytes) : Option (PacketMetadata × Bytes) :=
  (decOption decBytes bs).bind (fun pr =>
    (decVec (fun b =>
        (decBytes b).bind (fun k =>
          (decBytes k.2).map (fun v => ((k.1, v.1), v.2)))) pr.2).map
      (fun fr => ({ protocol := pr.1, fields := fr.1 }, fr.2)))

/-- Decode a `MeshPacket` (fields in declaration order). -/
def decMeshPacket (bs : Bytes) : Option (MeshPacket × Bytes) :=
  (decU8 bs).bind (fun ver =>
    (decPacketType ver.2).bind (fun pt =>
      (decArr32 pt.2).bind (fun src =>
        (decArr32 src.2).bind (fun dst =>
          (decVec decArr32 dst.2).bind (fun rt =>
            (decU64 rt.2).bind (fun seq =>
              (decU64 seq.2).bind (fun ts =>
                (decOption decPaymentProof ts.2).bind (fun pp =>
                  (decBytes pp.2).bind (fun pl =>
                    (decOption decPacketMetadata pl.2).map (fun md =>
                      ({ version := ver.1, packetType := pt.1, source := src.1,
                         destination := dst.1, route := rt.1, sequence := seq.1,
                         timestamp := ts.1, paymentProof := pp.1,
                         payload := pl.1, metadata := md.1 }, md.2)))))))))))

/-! ### Errors (`error.rs` plus the message payloads used by the code) -/

/-- The distinct `MeshError::InvalidPacket(...)` payloads produced by the
code. -/
inductive InvalidKind : Type
  /-- `"Empty payload"` (manager.rs) -/
  | emptyPayload
  /-- `"Invalid destination (zero hash)"` (manager.rs) -/
  | zeroDestination
  /-- a `MeshPacket::validate` failure message -/
  | structural (e : PacketErr)
  /-- `"Not a mesh packet (invalid magic bytes)"` (network.rs) -/
  | badMagic
  /-- `"Failed to deserialize packet: {e}"` (network.rs) -/
  | decodeFailed
deriving DecidableEq, Repr

/-- `ReplayPrevention::check_replay` error strings (replay.rs). -/
inductive ReplayErr : Type
  /-- `"Payment proof already used (replay detected)"` -/
  | alreadyUsed
  /-- `"Sequence number out of order: got {got}, expected > {expected}"` -/
  | seqOutOfOrder (got expected : Nat)
  /-- `"Payment proof expired"` -/
  | proofExpired
deriving DecidableEq, Repr

/-- The `MeshError::PaymentVerification(...)` payloads produced by
`MeshManager::route_packet`. -/
inductive PayErr : Type
  /-- `"Payment proof required for paid packets"` -/
  | proofRequired
  /-- the verifier reported `verified = false`; carries
  `verification.error.unwrap_or("Payment verification failed")` -/
  | notVerified (msg : String)
  /-- the verifier call itself returned `Err(e)`; carries `e.to_string()` -/
  | oracle (msg : String)
deriving DecidableEq, Repr

/-- The `MeshError::RouteNotFound(...)` payloads produced by
`MeshManager::forward_packet` (the formatted hex node-id suffix of each
source string is not carried). -/
inductive RnfKind : Type
  /-- `"Next hop not found: {id}"` -/
  | nextHopNotFound
  /-- `"Destination peer not found: {id}"` -/
  | destPeerNotFound
  /-- `"No route to destination: {id}"` -/
  | noRoute
deriving DecidableEq, Repr

/-- `MeshError` (error.rs), restricted to the variants the modelled code
constructs, with structured payloads in place of the formatted strings. -/
inductive MeshError : Type
  | invalidPacket (k : InvalidKind)
  | paymentVerification (e : PayErr)
  | replayDetected (e : ReplayErr)
  | routeNotFound (k : RnfKind)
  | meshDisabled
  | networkError (msg : String)
deriving DecidableEq, Repr

/-! ### Network codec entry points (`network.rs`) -/

/-- `is_mesh_packet`: at least 4 bytes and the "MESH" magic prefix. -/
def isMeshPacket (data : Bytes) : Bool :=
  decide (4 ≤ data.length) && decide (data.take 4 = meshPacketMagic)

/-- `deserialize_mesh_packet`: checks the magic, then hands the **whole**
buffer — magic bytes included — to `bincode::deserialize` (the source does
not strip the prefix; see network.rs lines 26-29). -/
def deserializeMeshPacket (data : Bytes) : Except MeshError MeshPacket :=
  if ¬ isMeshPacket data then .error (.invalidPacket .badMagic)
  else
    match decMeshPacket data with
    | some pr => .ok pr.1
    | none => .error (.invalidPacket .decodeFailed)

/-- `serialize_mesh_packet`: validate, bincode-encode, prepend the magic. -/
def serializeMeshPacket (packet : MeshPacket) : Except MeshError Bytes :=
  match packet.validate with
  | .error e => .error (.invalidPacket (.structural e))
  | .ok _ => .ok (meshPacketMagic ++ encMeshPacket packet)

/-! ### Routing policy engine (`routing_policy.rs`) -/

/-- `RoutingPolicy`. -/
inductive RoutingPolicy : Type
  | free
  | paymentRequired
deriving DecidableEq, Repr

/-- `DetectedProtocol`. -/
inductive DetectedProtocol : Type
  | bitcoinP2P
  | commonsGovernance
  | stratumV2
  | meshPacket
  | unknown
deriving DecidableEq, Repr

/-- `MeshMode`. -/
inductive MeshMode : Type
  | bitcoinOnly
  | paymentGated
  | open
deriving DecidableEq, Repr

/-- The ASCII bytes of a string (for the fixed command tables below). -/
def ascii (s : String) : Bytes := s.toList.map Char.toNat

/-- `RoutingPolicyEngine::is_bitcoin_command`, on the command's bytes.  The
source compares the string obtained by `from_utf8_lossy` against pure-ASCII
literals, which holds exactly when the raw bytes equal the ASCII bytes. -/
def isBitcoinCommand (cmd : Bytes) : Bool :=
  [ "version", "verack", "ping", "pong",
    "getheaders", "headers", "getblocks", "block",
    "getdata", "inv", "tx", "notfound",
    "getaddr", "addr", "mempool", "feefilter",
    "sendheaders", "sendcmpct", "cmpctblock",
    "getblocktxn", "blocktxn", "getcfilters",
    "cfilter", "getcfheaders", "cfheaders",
    "getcfcheckpt", "cfcheckpt", "sendpkgtxn",
    "pkgtxn", "pkgtxnreject" ].any (fun s => decide (cmd = ascii s))

/-- `RoutingPolicyEngine::is_governance_command`. -/
def isGovernanceCommand (cmd : Bytes) : Bool :=
  [ "econreg", "econveto", "econstat", "econfork",
    "getbanlist", "banlist" ].any (fun s => decide (cmd = ascii s))

/-- `RoutingPolicyEngine::is_stratum_v2_message`: little-endian `u16` tag of
the first two bytes in `[0x0100, 0x01FF] ∪ [0x0200, 0x02FF]`. -/
def isStratumV2Message (message : Bytes) : Bool :=
  match message with
  | b0 :: b1 :: _ =>
      let tag := b0 % 256 + 256 * (b1 % 256)
      (decide (0x0100 ≤ tag) && decide (tag ≤ 0x01FF)) ||
        (decide (0x0200 ≤ tag) && decide (tag ≤ 0x02FF))
  | _ => false

/-- Trailing-NUL trim of the 8 command bytes (`trim_end_matches('\0')` on
the lossily decoded string removes exactly the trailing zero bytes). -/
def trimTrailingZeros (bs : Bytes) : Bytes :=
  (bs.reverse.dropWhile (fun b => decide (b = 0))).reverse

/-- `RoutingPolicyEngine::detect_protocol`, checks in source order:
Bitcoin magic + command, then Stratum V2 tag, then "MESH" magic, else
Unknown.  Pure: the engine's mode is not consulted. -/
def detectProtocol (message : Bytes) : DetectedProtocol :=
  let bitcoin : Option DetectedProtocol :=
    match message with
    | m0 :: m1 :: m2 :: m3 :: _ =>
        let magic := leToNat [m0, m1, m2, m3]
        if magic = 0xd9b4bef9 ∨ magic = 0x0709110b ∨ magic = 0xdab5bffa then
          if 12 ≤ message.length then
            let command := trimTrailingZeros ((message.drop 4).take 8)
            if isBitcoinCommand command then some .bitcoinP2P
            else if isGovernanceCommand command then some .commonsGovernance
            else none
          else none
        else none
    | _ => none
  match bitcoin with
  | some p => p
  | none =>
      if 2 ≤ message.length ∧ isStratumV2Message message then .stratumV2
      else if 4 ≤ message.length ∧ message.take 4 = meshPacketMagic then .meshPacket
      else .unknown

/-- `RoutingPolicyEngine::determine_policy` (the mode is the engine's
state; passed explicitly here). -/
def determinePolicy (mode : MeshMode) (protocol : DetectedProtocol) : RoutingPolicy :=
  match protocol, mode with
  | .bitcoinP2P, _ => .free
  | .commonsGovernance, _ => .free
  | .stratumV2, _ => .free
  | .meshPacket, .bitcoinOnly => .paymentRequired
  | .meshPacket, .paymentGated => .paymentRequired
  | .meshPacket, .open => .free
  | .unknown, .open => .free
  | .unknown, _ => .paymentRequired

/-! ### Replay guard (`replay.rs`) -/

/-- `ReplayEntry` from `replay.rs`. -/
structure ReplayEntry : Type where
  timestamp : Nat
  peerId : NodeId
  sequence : Nat
deriving DecidableEq, Repr

/-- `ReplayPrevention` state: `replay_data : DashMap<[u8;32], ReplayEntry>`,
`used_sequences : DashMap<[u8;32], u64>`, and the configured expiry. -/
structure ReplayPrevention : Type where
  replayData : List (Hash32 × ReplayEntry)
  usedSequences : List (NodeId × Nat)
  expirySeconds : Nat
deriving DecidableEq, Repr

/-- `ReplayPrevention::new`. -/
def ReplayPrevention.new (expirySeconds : Nat) : ReplayPrevention :=
  { replayData := [], usedSequences := [], expirySeconds }

/-- `ReplayPrevention::cleanup_expired`: remove every entry with
`now > timestamp + expiry_seconds` (collect-then-remove in the source,
equivalent to a filter); `used_sequences` is untouched. -/
def ReplayPrevention.cleanupExpired (st : ReplayPrevention) (now : Nat) :
    ReplayPrevention :=
  { st with replayData :=
      st.replayData.filter (fun kv => ! decide (now > kv.2.timestamp + st.expirySeconds)) }

/-- `ReplayPrevention::check_replay`.  The proof enters the source function
only through `proof.hash()` and `proof.is_expired()`; those two values are
passed here as `proofHash` (SHA-256 of the bincode serialization, not
re-modelled) and `proofExpired` (`PaymentProof.isExpired now proof` for a
concrete proof).  `now` is the `SystemTime::now()` reading used for the
cleanup sweep and for the inserted entry's timestamp.  Returns the result
together with the updated state (the cleanup mutation persists even when an
error is returned). -/
def ReplayPrevention.checkReplay (st : ReplayPrevention) (now : Nat)
    (proofHash : Hash32) (proofExpired : Bool) (peerId : NodeId)
    (sequence : Nat) : Except ReplayErr Bool × ReplayPrevention :=
  let st := st.cleanupExpired now
  if alistContains st.replayData proofHash then
    (.error .alreadyUsed, st)
  else
    let proceed : Except ReplayErr Bool × ReplayPrevention :=
      if proofExpired then (.error .proofExpired, st)
      else
        (.ok true,
          { st with
            replayData := alistInsert st.replayData proofHash
              { timestamp := now, peerId := peerId, sequence := sequence },
            usedSequences := alistInsert st.usedSequences peerId sequence })
    match alistLookup st.usedSequences peerId with
    | some stored =>
        if sequence ≤ stored then (.error (.seqOutOfOrder sequence stored), st)
        else proceed
    | none => proceed

/-! ### Routing table (`routing.rs`) -/

/-- `RoutingEntry` from `routing.rs`.  Peer addresses enter the table as the
UTF-8 bytes of host-supplied strings and are only ever converted back with
`String::from_utf8(..).ok()`, so they are modelled as the strings
themselves.  `quality_score` is an `f64` that the code only ever sets to the
constants 1.0 / 0.8 / 0.7 and never computes with; it is modelled in
tenths. -/
structure RoutingEntry : Type where
  nodeId : NodeId
  directAddress : Option String
  nextHop : Option NodeId
  routePath : List NodeId
  routeCost : Nat
  lastUpdated : Nat
  qualityTenths : Nat
deriving DecidableEq, Repr

/-- `RoutingTable` state. -/
structure RoutingTable : Type where
  routes : List (NodeId × RoutingEntry)
  directPeers : List (NodeId × String)
  routeCache : List (NodeId × List NodeId)
  routeExpirySeconds : Nat
deriving DecidableEq, Repr

/-- `RoutingTable::new`. -/
def RoutingTable.new (routeExpirySeconds : Nat) : RoutingTable :=
  { routes := [], directPeers := [], routeCache := [], routeExpirySeconds }

/-- `RoutingTable::add_direct_peer`: upsert `direct_peers` and `routes` with
a pinned direct entry (`direct_address` set, `next_hop` cleared,
`route_path = [node_id]`, cost 0, quality 1.0, `last_updated = now`). -/
def RoutingTable.addDirectPeer (rt : RoutingTable) (now : Nat) (nodeId : NodeId)
    (address : String) : RoutingTable :=
  { rt with
    directPeers := alistInsert rt.directPeers nodeId address,
    routes := alistInsert rt.routes nodeId
      { nodeId := nodeId, directAddress := some address, nextHop := none,
        routePath := [nodeId], routeCost := 0, lastUpdated := now,
        qualityTenths := 10 } }

/-- `RoutingTable::remove_direct_peer`: drop from `direct_peers`, and drop
from `routes` iff the entry was direct-only. -/
def RoutingTable.removeDirectPeer (rt : RoutingTable) (nodeId : NodeId) :
    RoutingTable :=
  let rt := { rt with directPeers := alistRemove rt.directPeers nodeId }
  match alistLookup rt.routes nodeId with
  | some entry =>
      if entry.directAddress.isSome ∧ entry.nextHop = none then
        { rt with routes := alistRemove rt.routes nodeId }
      else rt
  | none => rt

/-- `RoutingTable::add_route`. -/
def RoutingTable.addRoute (rt : RoutingTable) (entry : RoutingEntry) :
    RoutingTable :=
  { rt with routes := alistInsert rt.routes entry.nodeId entry }

/-- `RoutingTable::get_route`. -/
def RoutingTable.getRoute (rt : RoutingTable) (nodeId : NodeId) :
    Option RoutingEntry :=
  alistLookup rt.routes nodeId

/-- `RoutingTable::find_route`: cache hit, else a routes lookup guarded by
the freshness check `now ≤ last_updated + route_expiry_seconds` (caching the
path on success).  Returns the found path and the updated table. -/
def RoutingTable.findRoute (rt : RoutingTable) (now : Nat)
    (destination : NodeId) : Option (List NodeId) × RoutingTable :=
  match alistLookup rt.routeCache destination with
  | some route => (some route, rt)
  | none =>
      match alistLookup rt.routes destination with
      | some entry =>
          if now ≤ entry.lastUpdated + rt.routeExpirySeconds then
            (some entry.routePath,
              { rt with routeCache :=
                  alistInsert rt.routeCache destination entry.routePath })
          else (none, rt)
      | none => (none, rt)

/-- `RoutingFee` from `routing.rs`. -/
structure RoutingFee : Type where
  total : Nat
  destination : Nat
  intermediate : Nat
  source : Nat
  hopCount : Nat
deriving DecidableEq, Repr

/-- `RoutingTable::calculate_routing_fee`.  The `u64` products wrap modulo
`2^64` (release-profile semantics); the divisions cannot re-overflow. -/
def calculateRoutingFee (route : List NodeId) (baseFeeSats : Nat) : RoutingFee :=
  let totalFee := baseFeeSats % u64Mod
  let destinationFee := (totalFee * 60 % u64Mod) / 100
  let intermediateFee :=
    if route.length > 2 then (totalFee * 30 % u64Mod) / 100 / (route.length - 2)
    else 0
  let sourceFee := (totalFee * 10 % u64Mod) / 100
  { total := totalFee, destination := destinationFee,
    intermediate := intermediateFee, source := sourceFee,
    hopCount := route.length }

/-- `RoutingTable::cleanup_expired`: remove expired entries except pinned
direct ones (kept iff `¬(expired ∧ (direct_address.is_none ∨
next_hop.is_some))`), then clear the whole route cache. -/
def RoutingTable.cleanupExpired (rt : RoutingTable) (now : Nat) : RoutingTable :=
  { rt with
    routes := rt.routes.filter (fun kv =>
      ! (decide (now > kv.2.lastUpdated + rt.routeExpirySeconds) &&
         (kv.2.directAddress.isNone || kv.2.nextHop.isSome))),
    routeCache := [] }

/-! ### Route discovery (`discovery.rs`) -/

/-- `RouteAdvertisementEntry`. -/
structure RouteAdEntry : Type where
  destination : NodeId
  nextHop : NodeId
  cost : Nat
  hopCount : Nat
deriving DecidableEq, Repr

/-- `DiscoveryMessage`. -/
inductive DiscoveryMessage : Type
  | routeRequest (destination source : NodeId) (requestId : Nat) (maxHops : Nat)
  | routeResponse (destination source : NodeId) (requestId : Nat)
      (route : List NodeId) (cost : Nat)
  | routeAdvertisement (routes : List RouteAdEntry) (source : NodeId)
deriving DecidableEq, Repr

/-- `PendingRequest` from `discovery.rs`. -/
structure PendingRequest : Type where
  destination : NodeId
  source : NodeId
  requestId : Nat
  timestamp : Nat
  responders : List NodeId
deriving DecidableEq, Repr

/-- `RouteDiscovery` state (the shared routing table is passed alongside). -/
structure DiscoveryState : Type where
  pendingRequests : List (Nat × PendingRequest)
  requestIdCounter : Nat
  maxHops : Nat
  timeoutSeconds : Nat
deriving DecidableEq, Repr

/-- `RouteDiscovery::new`. -/
def DiscoveryState.new (maxHops timeoutSeconds : Nat) : DiscoveryState :=
  { pendingRequests := [], requestIdCounter := 0, maxHops, timeoutSeconds }

/-- `RouteDiscovery::discover_route`: an existing valid route, else a direct
peer gives `[source, destination]`, else allocate a fresh request id, record
a pending entry stamped `now`, and return no route (the constructed
`RouteRequest` value at discovery.rs:117 is never used — broadcasting is
unimplemented).  Returns (result, discovery state, routing table). -/
def discoverRoute (ds : DiscoveryState) (rt : RoutingTable) (now : Nat)
    (destination source : NodeId) :
    Except MeshError (Option (List NodeId)) × DiscoveryState × RoutingTable :=
  match rt.findRoute now destination with
  | (some route, rt') => (.ok (some route), ds, rt')
  | (none, rt') =>
      let requestId := ds.requestIdCounter + 1
      let pend : PendingRequest :=
        { destination := destination, source := source, requestId := requestId,
          timestamp := now, responders := [] }
      let ds' : DiscoveryState :=
        { ds with
          requestIdCounter := requestId,
          pendingRequests := alistInsert ds.pendingRequests requestId pend }
      match alistLookup rt'.routes destination with
      | some entry =>
          if entry.directAddress.isSome then
            (.ok (some [source, destination]), ds, rt')
          else
            (.ok none, ds', rt')
      | none =>
          (.ok none, ds', rt')

/-- `RouteDiscovery::handle_route_response`.  On a response whose
`request_id` is pending, the source appends the responder, builds a routing
entry whose `next_hop` is the **unguarded index** `route[1]`
(discovery.rs:283), upserts it, and removes the pending entry.  The
out-of-bounds panic of `route[1]` is modelled as `none`; every non-panicking
path returns `some` of the updated (discovery, routing) state. -/
def handleRouteResponse (ds : DiscoveryState) (rt : RoutingTable) (now : Nat)
    (response : DiscoveryMessage) (fromNode : NodeId) :
    Option (DiscoveryState × RoutingTable) :=
  match response with
  | .routeResponse destination _source requestId route cost =>
      match alistLookup ds.pendingRequests requestId with
      | none => some (ds, rt)
      | some request =>
          let request := { request with responders := request.responders ++ [fromNode] }
          let pend1 := alistInsert ds.pendingRequests requestId request
          let ds := { ds with pendingRequests := pend1 }
          match route.get? 1 with
          | none => none
          | some nextHop =>
              let entry : RoutingEntry :=
                { nodeId := destination, directAddress := none,
                  nextHop := some nextHop, routePath := route,
                  routeCost := cost, lastUpdated := now, qualityTenths := 8 }
              let ds := { ds with pendingRequests := alistRemove ds.pendingRequests requestId }
              some (ds, rt.addRoute entry)
  | _ => some (ds, rt)

/-! ### Forwarding manager (`manager.rs`) -/

/-- `MeshManager` state: the configuration flag and mode plus the three
mutable subsystem states and the node id.  The host `NodeAPI` handle is
modelled by the effect parameters of `routePacket` / `forwardPacket`. -/
structure ManagerState : Type where
  enabled : Bool
  mode : MeshMode
  replay : ReplayPrevention
  routing : RoutingTable
  discovery : DiscoveryState
  nodeId : NodeId
deriving DecidableEq, Repr

/-- Decidable equality for `Except` results. -/
instance {ε α : Type} [DecidableEq ε] [DecidableEq α] :
    DecidableEq (Except ε α) := fun a b =>
  match a, b with
  | .ok x, .ok y =>
      if h : x = y then .isTrue (by rw [h])
      else .isFalse (fun hc => h (Except.ok.inj hc))
  | .error x, .error y =>
      if h : x = y then .isTrue (by rw [h])
      else .isFalse (fun hc => h (Except.error.inj hc))
  | .ok _, .error _ => .isFalse (fun hc => Except.noConfusion hc)
  | .error _, .ok _ => .isFalse (fun hc => Except.noConfusion hc)

/-- Result of one manager operation: the returned value, the updated state,
and every `send_mesh_packet_to_peer(address, bytes)` call issued, in
order. -/
structure StepOut : Type where
  result : Except MeshError Unit
  state : ManagerState
  sends : List (String × Bytes)
deriving DecidableEq, Repr

/-- `MeshManager::determine_routing_policy`: `Free` when mesh is disabled,
else classify and apply the mode table. -/
def determineRoutingPolicy (enabled : Bool) (mode : MeshMode)
    (message : Bytes) : RoutingPolicy :=
  if !enabled then .free
  else determinePolicy mode (detectProtocol message)

/-- `MeshManager::find_peer_address`: the `direct_address` of the routing
entry, if any (the source's `String::from_utf8` on the stored bytes is the
identity in this model). -/
def findPeerAddress (rt : RoutingTable) (nodeId : NodeId) : Option String :=
  match rt.getRoute nodeId with
  | some entry => entry.directAddress
  | none => none

/-- `MeshManager::forward_packet`.  `hostSendErr addr bytes` models the host
transport: `none` is a successful `send_mesh_packet_to_peer`, `some e` its
error string (mapped to `NetworkError`); the attempted call is recorded in
`sends` either way.  The `my_node_id` binding at manager.rs:224 is read from
host storage and never used afterwards, so it has no model.  `now` feeds the
route lookups. -/
def forwardPacket (hostSendErr : String → Bytes → Option String)
    (st : ManagerState) (now : Nat) (packet : MeshPacket) : StepOut :=
  if !st.enabled then ⟨.error .meshDisabled, st, []⟩
  else if packet.payload = [] then ⟨.error (.invalidPacket .emptyPayload), st, []⟩
  else if packet.destination = zeroNodeId then
    ⟨.error (.invalidPacket .zeroDestination), st, []⟩
  else
    let (route0, rt1) := st.routing.findRoute now packet.destination
    let (routeOpt, ds2, rt2) :=
      match route0 with
      | some r => (some r, st.discovery, rt1)
      | none =>
          match discoverRoute st.discovery rt1 now packet.destination st.nodeId with
          | (.ok found, ds', rt') => (found, ds', rt')
          | (.error _, ds', rt') => (none, ds', rt')
    let st := { st with routing := rt2, discovery := ds2 }
    match routeOpt with
    | none => ⟨.error (.routeNotFound .noRoute), st, []⟩
    | some routePath =>
        let routeEntry := st.routing.getRoute packet.destination
        let nextHop := if routePath.length > 1 then routePath.get? 1 else none
        match nextHop with
        | some nextHopId =>
            let serialized :=
              if packet.route.contains st.nodeId then serializeMeshPacket packet
              else serializeMeshPacket (packet.addToRoute st.nodeId)
            match serialized with
            | .error e => ⟨.error e, st, []⟩
            | .ok bytes =>
                let peerAddress :=
                  match routeEntry with
                  | some entry =>
                      if nextHopId = packet.destination then entry.directAddress
                      else findPeerAddress st.routing nextHopId
                  | none => findPeerAddress st.routing nextHopId
                match peerAddress with
                | some addr =>
                    match hostSendErr addr bytes with
                    | none => ⟨.ok (), st, [(addr, bytes)]⟩
                    | some e => ⟨.error (.networkError e), st, [(addr, bytes)]⟩
                | none => ⟨.error (.routeNotFound .nextHopNotFound), st, []⟩
        | none =>
            match serializeMeshPacket packet with
            | .error e => ⟨.error e, st, []⟩
            | .ok bytes =>
                let peerAddress :=
                  match routeEntry with
                  | some entry => entry.directAddress
                  | none => findPeerAddress st.routing packet.destination
                match peerAddress with
                | some addr =>
                    match hostSendErr addr bytes with
                    | none => ⟨.ok (), st, [(addr, bytes)]⟩
                    | some e => ⟨.error (.networkError e), st, [(addr, bytes)]⟩
                | none => ⟨.error (.routeNotFound .destPeerNotFound), st, []⟩

/-- `MeshManager::route_packet`: disabled check, cheap payload /
zero-destination rejections, structural validation, policy classification,
the payment gate (replay check then verifier), then `forward_packet`.  The
host verifier call is the parameter `verify` (errors map to
`PaymentVerification(e.to_string())`); `hashProof` models `proof.hash()`
(SHA-256 of the bincode serialization); `hostSendErr` as in
`forwardPacket`. -/
def routePacket (verify : PaymentProof → Except String VerificationResult)
    (hashProof : PaymentProof → Hash32)
    (hostSendErr : String → Bytes → Option String)
    (st : ManagerState) (now : Nat) (packet : MeshPacket) : StepOut :=
  if !st.enabled then ⟨.error .meshDisabled, st, []⟩
  else if packet.payload = [] then ⟨.error (.invalidPacket .emptyPayload), st, []⟩
  else if packet.destination = zeroNodeId then
    ⟨.error (.invalidPacket .zeroDestination), st, []⟩
  else
    match packet.validate with
    | .error e => ⟨.error (.invalidPacket (.structural e)), st, []⟩
    | .ok _ =>
        let policy := determineRoutingPolicy st.enabled st.mode packet.payload
        if policy = .paymentRequired then
          match packet.paymentProof with
          | some proof =>
              let (replayRes, replay') := st.replay.checkReplay now
                (hashProof proof) (proof.isExpired now) packet.source
                packet.sequence
              let st := { st with replay := replay' }
              match replayRes with
              | .error e => ⟨.error (.replayDetected e), st, []⟩
              | .ok _ =>
                  match verify proof with
                  | .error e => ⟨.error (.paymentVerification (.oracle e)), st, []⟩
                  | .ok verification =>
                      if !verification.verified then
                        ⟨.error (.paymentVerification (.notVerified
                          (verification.error.getD "Payment verification failed"))),
                          st, []⟩
                      else forwardPacket hostSendErr st now packet
          | none =>
              ⟨.error (.paymentVerification .proofRequired), st, []⟩
        else forwardPacket hostSendErr st now packet

/-! ### Concrete instances used by the theorems below -/

/-- A 32-byte peer id (all bytes 1). -/
def peerA : NodeId := List.replicate 32 1

/-- A 32-byte node id (all bytes 3). -/
def nodeB : NodeId := List.replicate 32 3

/-- A 32-byte proof hash (all bytes 7). -/
def hash7 : Hash32 := List.replicate 32 7

/-- A structurally valid two-hop packet with no payment proof. -/
def c1Packet : MeshPacket :=
  { version := 1, packetType := .bitcoinP2P,
    source := peerA, destination := List.replicate 32 2,
    route := [peerA, List.replicate 32 2],
    sequence := 0, timestamp := 0, paymentProof := none,
    payload := [1, 2, 3, 4], metadata := none }

/-- A structurally valid packet whose destination is the zero hash
(source = destination = zero, one-element route). -/
def zeroDestPacket : MeshPacket :=
  { version := 1, packetType := .bitcoinP2P,
    source := zeroNodeId, destination := zeroNodeId,
    route := [zeroNodeId],
    sequence := 0, timestamp := 0, paymentProof := none,
    payload := [9], metadata := none }

/-- A replay guard with a 10-second expiry holding one entry for `hash7`
recorded at time 100 by `peerA` with sequence 1. -/
def rpWithHash7 : ReplayPrevention :=
  { replayData := [(hash7, { timestamp := 100, peerId := peerA, sequence := 1 })],
    usedSequences := [(peerA, 1)], expirySeconds := 10 }

/-- A replay guard whose last accepted sequence for `peerA` is 5. -/
def rpSeq5 : ReplayPrevention :=
  { replayData := [], usedSequences := [(peerA, 5)], expirySeconds := 86400 }

/-- An expired replay entry for `hash7` (time 0, expiry 10). -/
def rpStale : ReplayPrevention :=
  { replayData := [(hash7, { timestamp := 0, peerId := peerA, sequence := 1 })],
    usedSequences := [(peerA, 1)], expirySeconds := 10 }

/-- A pending discovery request with id 7. -/
def pendReq7 : PendingRequest :=
  { destination := nodeB, source := peerA, requestId := 7,
    timestamp := 0, responders := [] }

/-- A discovery state whose only pending request is `pendReq7`. -/
def dsPending7 : DiscoveryState :=
  { pendingRequests := [(7, pendReq7)], requestIdCounter := 7,
    maxHops := 10, timeoutSeconds := 30 }

/-- A three-hop route for the fee-split instance. -/
def feeRoute3 : List NodeId := [peerA, nodeB, hash7]

/-- An enabled payment-gated manager with empty tables. -/
def mgrGated : ManagerState :=
  { enabled := true, mode := .paymentGated,
    replay := ReplayPrevention.new 86400,
    routing := RoutingTable.new 3600,
    discovery := DiscoveryState.new 10 30,
    nodeId := List.replicate 32 9 }

/-- A structurally valid proof-less packet whose payload classifies as
`Unknown` (hence `PaymentRequired` in payment-gated mode). -/
def unknownPayloadPacket : MeshPacket :=
  { version := 1, packetType := .bitcoinP2P,
    source := peerA, destination := nodeB, route := [peerA, nodeB],
    sequence := 0, timestamp := 0, paymentProof := none,
    payload := [0x12, 0x34, 0x56, 0x78], metadata := none }

/-- A trivially successful verifier (the payment gate fails before it can
be consulted in the scenarios below). -/
def okVerifier : PaymentProof → Except String VerificationResult :=
  fun _ => .ok { verified := true, amount := 0, timestamp := 0,
                 expiresAt := none, error := none }

/-- A proof-hash oracle returning a fixed hash. -/
def constHash : PaymentProof → Hash32 := fun _ => hash7

/-- A host transport that always delivers. -/
def sendAlwaysOk : String → Bytes → Option String := fun _ _ => none

/-! ### Shared helper lemmas -/

/-- A binding whose pair satisfies the filter predicate survives the
filter, with the same first-match value. -/
theorem alistLookup_filter {κ ν : Type} [DecidableEq κ]
    (l : List (κ × ν)) (p : κ × ν → Bool) (k : κ) (v : ν)
    (hl : alistLookup l k = some v) (hp : p (k, v) = true) :
    alistLookup (l.filter p) k = some v := by
  induction l with
  | nil => simp [alistLookup] at hl
  | cons kv rest ih =>
    obtain ⟨k', v'⟩ := kv
    by_cases hk : k' = k
    · subst hk
      simp only [alistLookup, if_pos rfl] at hl
      cases hl
      rw [List.filter_cons_of_pos hp]
      simp [alistLookup]
    · simp only [alistLookup, if_neg hk] at hl
      cases hpkv : p (k', v') with
      | true =>
          rw [List.filter_cons_of_pos hpkv]
          simp only [alistLookup, if_neg hk]
          exact ih hl
      | false =>
          rw [List.filter_cons_of_neg (by simp [hpkv])]
          exact ih hl

/-- The cleanup sweep does not touch the per-peer sequence map. -/
theorem cleanup_usedSequences (st : ReplayPrevention) (now : Nat) :
    (st.cleanupExpired now).usedSequences = st.usedSequences := rfl

/-! ### C1 -/

/-- **C1** (code bug).  The claim states that
`deserialize_mesh_packet(serialize_mesh_packet(P))` succeeds and returns `P`
for every valid packet, the deserializer stripping the 4-byte "MESH" magic.
The code emits the magic but never strips it: `bincode::deserialize`
receives the whole buffer, reads the magic byte `0x4D` as the `version`
field and then fails decoding the `packet_type` variant tag.  At the
concrete valid packet `c1Packet` the round trip therefore returns an
`InvalidPacket` deserialization error instead of the packet. -/
theorem C1_roundtrip_fails :
    c1Packet.validate = .ok () ∧
    serializeMeshPacket c1Packet = .ok (meshPacketMagic ++ encMeshPacket c1Packet) ∧
    deserializeMeshPacket (meshPacketMagic ++ encMeshPacket c1Packet) =
      .error (.invalidPacket .decodeFailed) := by
  refine ⟨rfl, rfl, ?_⟩
  rfl

/-! ### C2 -/

/-- **C2 counterexample.**  The claim says at most one `check_replay` call
for a given proof hash ever succeeds, regardless of how much time passes.
With `expiry_seconds = 10`, a call for `hash7` succeeds at time 100 and a
second call for the same hash succeeds at time 200: the best-effort cleanup
that `check_replay` runs first removes the entry once
`now > timestamp + expiry_seconds`. -/
theorem C2_second_success_after_expiry :
    ((ReplayPrevention.new 10).checkReplay 100 hash7 false peerA 1).1 = .ok true ∧
    ((((ReplayPrevention.new 10).checkReplay 100 hash7 false peerA 1).2).checkReplay
        200 hash7 false peerA 2).1 = .ok true := by
  exact ⟨rfl, rfl⟩

/-- **C2 amended.**  At most one `check_replay` call for a proof hash `h`
succeeds *while the recorded entry for `h` is unexpired*: whenever
`replay_data` holds an entry for `h` and `now ≤ entry.timestamp +
expiry_seconds`, the call fails with the "proof already used" replay error
(a later success is possible only after the entry has aged out of the
replay window and been swept). -/
theorem C2_at_most_once_within_expiry (st : ReplayPrevention) (now : Nat)
    (h : Hash32) (e : Bool) (p : NodeId) (s : Nat) (entry : ReplayEntry)
    (hmem : alistLookup st.replayData h = some entry)
    (hfresh : now ≤ entry.timestamp + st.expirySeconds) :
    (st.checkReplay now h e p s).1 = .error .alreadyUsed := by
  have hkeep : alistLookup (st.cleanupExpired now).replayData h = some entry := by
    unfold ReplayPrevention.cleanupExpired
    exact alistLookup_filter _ _ _ _ hmem (by simp; omega)
  unfold ReplayPrevention.checkReplay
  simp [alistContains, hkeep]

/-- Witness for C2 amended: a second call for `hash7` at time 105, five
seconds after the recorded entry (expiry 10), is rejected. -/
theorem C2_at_most_once_within_expiry_witness :
    (rpWithHash7.checkReplay 105 hash7 false peerA 2).1 = .error .alreadyUsed :=
  C2_at_most_once_within_expiry rpWithHash7 105 hash7 false peerA 2
    { timestamp := 100, peerId := peerA, sequence := 1 } (by decide) (by decide)

/-! ### C3 -/

/-- **C3 counterexample.**  The claim says that after `add_direct_peer(N,A)`,
advancing time by 2×TTL, and `cleanup_expired`, `find_route(N)` still
returns `[N]`.  With the default TTL 3600 the lookup returns nothing: the
freshness check of `find_route` applies to pinned direct entries too. -/
theorem C3_find_route_after_ttl_is_none :
    ((((RoutingTable.new 3600).addDirectPeer 1000 nodeB "addr").cleanupExpired
        (1000 + 2 * 3600)).findRoute (1000 + 2 * 3600) nodeB).1 = none := by
  rfl

/-- **C3 amended.**  Direct peers are pinned against the sweep itself: after
`add_direct_peer(N, A)` at time `t0`, a `cleanup_expired` at `t0 + 2·ttl`
leaves the direct entry in `routes` (so `get_route(N)` still returns it),
but `find_route(N)` then returns none, because its freshness check
`now ≤ last_updated + ttl` is applied to direct entries as well. -/
theorem C3_direct_peer_pinned_but_unroutable (ttl t0 : Nat) (n : NodeId)
    (a : String) (httl : 0 < ttl) :
    (((RoutingTable.new ttl).addDirectPeer t0 n a).cleanupExpired
        (t0 + 2 * ttl)).getRoute n =
      some { nodeId := n, directAddress := some a, nextHop := none,
             routePath := [n], routeCost := 0, lastUpdated := t0,
             qualityTenths := 10 } ∧
    ((((RoutingTable.new ttl).addDirectPeer t0 n a).cleanupExpired
        (t0 + 2 * ttl)).findRoute (t0 + 2 * ttl) n).1 = none := by
  have hstale : ¬ (t0 + 2 * ttl ≤ t0 + ttl) := by omega
  constructor
  · simp [RoutingTable.new, RoutingTable.addDirectPeer, RoutingTable.cleanupExpired,
      RoutingTable.getRoute, alistInsert, alistRemove, alistLookup, List.filter]
  · simp [RoutingTable.new, RoutingTable.addDirectPeer, RoutingTable.cleanupExpired,
      RoutingTable.findRoute, alistInsert, alistRemove, alistLookup, List.filter,
      hstale]

/-- Witness for C3 amended at TTL 3600, `t0 = 1000`. -/
theorem C3_direct_peer_pinned_but_unroutable_witness :
    (((RoutingTable.new 3600).addDirectPeer 1000 nodeB "addr").cleanupExpired
        (1000 + 2 * 3600)).getRoute nodeB =
      some { nodeId := nodeB, directAddress := some "addr", nextHop := none,
             routePath := [nodeB], routeCost := 0, lastUpdated := 1000,
             qualityTenths := 10 } ∧
    ((((RoutingTable.new 3600).addDirectPeer 1000 nodeB "addr").cleanupExpired
        (1000 + 2 * 3600)).findRoute (1000 + 2 * 3600) nodeB).1 = none :=
  C3_direct_peer_pinned_but_unroutable 3600 1000 nodeB "addr" (by decide)

/-! ### C4 -/

/-- **C4 counterexample.**  The claim says a proof whose expiry field equals
the current time is expired.  A Lightning proof with `expires_at = 100` is
*not* expired at `now = 100`: the code uses strict `now > expires_at`. -/
theorem C4_boundary_not_expired :
    PaymentProof.isExpired 100
      (.lightning [] (List.replicate 32 0) 0 0 100) = false := by
  rfl

/-- **C4 amended.**  `is_expired` is strict: a proof is expired iff `now`
is strictly past the bound (`expires_at` for Lightning, `timestamp + 24h`
for template proofs); at the boundary (`expires_at == now`) it returns
false. -/
theorem C4_is_expired_iff_strictly_past (now : Nat) (p : PaymentProof) :
    p.isExpired now = true ↔
      (match p with
       | .lightning _ _ _ _ expiresAt => expiresAt < now
       | .instantSettlement _ _ _ _ timestamp => timestamp + 24 * 60 * 60 < now) := by
  cases p <;> simp [PaymentProof.isExpired]

/-! ### C5 -/

/-- **C5.**  Strict per-peer sequence monotonicity of `check_replay`
(stated at the sequence-check step, i.e. for calls that pass the preceding
proof-hash check): if `used_sequences` holds `L` for peer `p`, every call
with `sequence ≤ L` fails with the sequence-out-of-order replay error,
while a call with `sequence > L`, or from a previously unseen peer with any
sequence (including 0), never produces a sequence error. -/
theorem C5_sequence_monotonicity (st : ReplayPrevention) (now : Nat)
    (h : Hash32) (e : Bool) (p : NodeId) (s : Nat)
    (hHash : alistContains (st.cleanupExpired now).replayData h = false) :
    (∀ L, alistLookup st.usedSequences p = some L → s ≤ L →
        (st.checkReplay now h e p s).1 = .error (.seqOutOfOrder s L)) ∧
    ((alistLookup st.usedSequences p = none ∨
        (∃ L, alistLookup st.usedSequences p = some L ∧ L < s)) →
      ∀ g x, (st.checkReplay now h e p s).1 ≠ .error (.seqOutOfOrder g x)) := by
  have hseq : alistLookup (st.cleanupExpired now).usedSequences p =
      alistLookup st.usedSequences p := by
    rw [cleanup_usedSequences]
  constructor
  · intro L hL hs
    unfold ReplayPrevention.checkReplay
    simp [hHash, hseq, hL, hs]
  · rintro (hnone | ⟨L, hL, hlt⟩) g x
    · unfold ReplayPrevention.checkReplay
      simp [hHash, hseq, hnone]
      cases e <;> simp
    · unfold ReplayPrevention.checkReplay
      simp [hHash, hseq, hL, Nat.not_le.mpr hlt, Nat.not_le_of_lt hlt]
      cases e <;> simp

/-- Witness for C5: with last accepted sequence 5 for `peerA`, a call with
sequence 3 fails as out of order. -/
theorem C5_sequence_monotonicity_witness :
    (rpSeq5.checkReplay 0 hash7 false peerA 3).1 = .error (.seqOutOfOrder 3 5) :=
  (C5_sequence_monotonicity rpSeq5 0 hash7 false peerA 3 (by decide)).1 5
    (by decide) (by decide)

/-! ### C6 -/

/-- **C6.**  A packet that reaches the payment gate (mesh enabled,
non-empty payload, non-zero destination, structurally valid) whose payload
classifies to `PaymentRequired` and which carries no payment proof is
rejected by `route_packet` with the `PaymentVerification` "proof required"
error, and no `send_mesh_packet_to_peer` call is made — for every verifier,
proof-hash oracle and host transport. -/
theorem C6_payment_required_without_proof
    (verify : PaymentProof → Except String VerificationResult)
    (hashProof : PaymentProof → Hash32)
    (hostSendErr : String → Bytes → Option String)
    (st : ManagerState) (now : Nat) (packet : MeshPacket)
    (hEnabled : st.enabled = true)
    (hPayload : packet.payload ≠ [])
    (hDest : packet.destination ≠ zeroNodeId)
    (hValid : packet.validate = .ok ())
    (hPolicy : determineRoutingPolicy st.enabled st.mode packet.payload =
      .paymentRequired)
    (hNoProof : packet.paymentProof = none) :
    (routePacket verify hashProof hostSendErr st now packet).result =
      .error (.paymentVerification .proofRequired) ∧
    (routePacket verify hashProof hostSendErr st now packet).sends = [] := by
  rw [hEnabled] at hPolicy
  unfold routePacket
  simp [hEnabled, hPayload, hDest, hValid, hPolicy, hNoProof]

/-- Witness for C6: a proof-less packet with an `Unknown` payload in
payment-gated mode is rejected with "proof required" and nothing is sent. -/
theorem C6_payment_required_without_proof_witness :
    (routePacket okVerifier constHash sendAlwaysOk mgrGated 0
        unknownPayloadPacket).result =
      .error (.paymentVerification .proofRequired) ∧
    (routePacket okVerifier constHash sendAlwaysOk mgrGated 0
        unknownPayloadPacket).sends = [] :=
  C6_payment_required_without_proof okVerifier constHash sendAlwaysOk mgrGated 0
    unknownPayloadPacket rfl (by decide) (by decide) (by decide) (by decide) rfl

/-! ### C7 -/

/-- **C7 counterexample.**  The claim says `MeshPacket::validate()` rejects
every packet whose destination is the zero hash.  `zeroDestPacket` has the
all-zero destination and `validate()` accepts it: the zero-destination
check is not among the invariants `validate` enforces. -/
theorem C7_validate_accepts_zero_destination :
    zeroDestPacket.destination = zeroNodeId ∧
    zeroDestPacket.validate = .ok () := by
  exact ⟨rfl, rfl⟩

/-- **C7 amended.**  The zero-destination rejection lives in
`MeshManager::route_packet`, not in `validate()`: an enabled manager
rejects any non-empty-payload packet with the all-zero destination
up-front with `InvalidPacket("Invalid destination (zero hash)")`, before
`validate` runs and without any send. -/
theorem C7_route_packet_rejects_zero_destination
    (verify : PaymentProof → Except String VerificationResult)
    (hashProof : PaymentProof → Hash32)
    (hostSendErr : String → Bytes → Option String)
    (st : ManagerState) (now : Nat) (packet : MeshPacket)
    (hEnabled : st.enabled = true)
    (hPayload : packet.payload ≠ [])
    (hZero : packet.destination = zeroNodeId) :
    (routePacket verify hashProof hostSendErr st now packet).result =
      .error (.invalidPacket .zeroDestination) ∧
    (routePacket verify hashProof hostSendErr st now packet).sends = [] := by
  unfold routePacket
  simp [hEnabled, hPayload, hZero]

/-- Witness for C7 amended at `zeroDestPacket`. -/
theorem C7_route_packet_rejects_zero_destination_witness :
    (routePacket okVerifier constHash sendAlwaysOk mgrGated 0
        zeroDestPacket).result = .error (.invalidPacket .zeroDestination) ∧
    (routePacket okVerifier constHash sendAlwaysOk mgrGated 0
        zeroDestPacket).sends = [] :=
  C7_route_packet_rejects_zero_destination okVerifier constHash sendAlwaysOk
    mgrGated 0 zeroDestPacket rfl (by decide) rfl

/-! ### C8 -/

/-- **C8.**  For every route of length `H` and base fee `F` (within `u64`
range: `F·60 < 2^64`, so no multiplication wraps), the fee split is
destination `⌊60F/100⌋`, source `⌊10F/100⌋`, and per-intermediate
`⌊⌊30F/100⌋/(H−2)⌋` when `H ≥ 3`, else 0. -/
theorem C8_fee_split (route : List NodeId) (f : Nat) (hf : f * 60 < u64Mod) :
    (calculateRoutingFee route f).destination = f * 60 / 100 ∧
    (calculateRoutingFee route f).source = f * 10 / 100 ∧
    (calculateRoutingFee route f).intermediate =
      (if 3 ≤ route.length then f * 30 / 100 / (route.length - 2) else 0) := by
  have hfu : f < u64Mod := by omega
  have hm : f % u64Mod = f := Nat.mod_eq_of_lt hfu
  have h60 : f * 60 % u64Mod = f * 60 := Nat.mod_eq_of_lt hf
  have h30 : f * 30 % u64Mod = f * 30 := Nat.mod_eq_of_lt (by omega)
  have h10 : f * 10 % u64Mod = f * 10 := Nat.mod_eq_of_lt (by omega)
  simp only [calculateRoutingFee, hm, h60, h30, h10]
  refine ⟨trivial, trivial, ?_⟩
  by_cases hlen : 2 < route.length
  · rw [if_pos hlen, if_pos (show 3 ≤ route.length by omega)]
  · rw [if_neg hlen, if_neg (show ¬ 3 ≤ route.length by omega)]

/-- Witness for C8: base fee 1000 with a 3-hop route yields 600 to the
destination, 300 to the single intermediate and 100 to the source. -/
theorem C8_fee_split_witness :
    (calculateRoutingFee feeRoute3 1000).destination = 600 ∧
    (calculateRoutingFee feeRoute3 1000).intermediate = 300 ∧
    (calculateRoutingFee feeRoute3 1000).source = 100 := by
  have h := C8_fee_split feeRoute3 1000 (by decide)
  exact ⟨h.1.trans (by decide), h.2.2.trans (by decide), h.2.1.trans (by decide)⟩

/-! ### C9 -/

/-- **C9.**  `handle_route_response` is not total: on a `RouteResponse`
whose `request_id` (7) matches a pending request and whose route `[nodeB]`
has length 1 < 2, the unguarded index `route[1]` used to build the new
entry's `next_hop` is out of bounds — the modelled panic (`none`) is
reached instead of an error return or an ignore. -/
theorem C9_short_route_response_panics :
    ([nodeB] : List NodeId).length < 2 ∧
    alistContains dsPending7.pendingRequests 7 = true ∧
    handleRouteResponse dsPending7 (RoutingTable.new 3600) 5
      (.routeResponse nodeB peerA 7 [nodeB] 100) peerA = none := by
  exact ⟨by decide, rfl, rfl⟩

/-! ### C10 -/

/-- **C10.**  Whenever `check_replay` returns an error, it inserts nothing:
the final state's `used_sequences` is exactly the caller's, and its
`replay_data` is exactly the caller's minus the already-expired entries
that the best-effort cleanup sweep removed (in particular, no new entry was
added). -/
theorem C10_error_inserts_nothing (st : ReplayPrevention) (now : Nat)
    (h : Hash32) (e : Bool) (p : NodeId) (s : Nat) (err : ReplayErr)
    (st2 : ReplayPrevention)
    (hcall : st.checkReplay now h e p s = (.error err, st2)) :
    st2.usedSequences = st.usedSequences ∧
    st2.replayData = st.replayData.filter
      (fun kv => ! decide (now > kv.2.timestamp + st.expirySeconds)) := by
  have hgoal : st2 = st.cleanupExpired now := by
    simp only [ReplayPrevention.checkReplay] at hcall
    split at hcall
    · exact (congrArg Prod.snd hcall).symm
    · split at hcall
      · split at hcall
        · exact (congrArg Prod.snd hcall).symm
        · split at hcall
          · exact (congrArg Prod.snd hcall).symm
          · exact absurd (congrArg Prod.fst hcall) (by simp)
      · split at hcall
        · exact (congrArg Prod.snd hcall).symm
        · exact absurd (congrArg Prod.fst hcall) (by simp)
  subst hgoal
  exact ⟨rfl, rfl⟩

/-- Witness for C10: a call with an expired replay entry on file and an
out-of-order sequence fails, leaves `used_sequences` unchanged and only
sweeps the stale `replay_data` entry. -/
theorem C10_error_inserts_nothing_witness :
    (⟨[], [(peerA, 1)], 10⟩ : ReplayPrevention).usedSequences =
      rpStale.usedSequences ∧
    (⟨[], [(peerA, 1)], 10⟩ : ReplayPrevention).replayData =
      rpStale.replayData.filter
        (fun kv => ! decide (100 > kv.2.timestamp + rpStale.expirySeconds)) :=
  C10_error_inserts_nothing rpStale 100 hash7 false peerA 0
    (.seqOutOfOrder 0 1) ⟨[], [(peerA, 1)], 10⟩ (by decide)

end BlvmMesh
